import Mathlib

/-!
Shallow embedding of `src/testAPI.py` (repository WhyNoInterviews), a five-check
smoke-test script over two AI-provider SDKs, together with theorems settling the
spec claims about it.

Modelling conventions:
* The process environment (`os.getenv`) is an explicit map `Env`.
* A Python exception is a `PyExc`; its `fromException` flag records whether the
  exception class derives from `Exception` (as opposed to being a
  `BaseException`-only class such as `KeyboardInterrupt` or `SystemExit`),
  which is exactly the condition tested by the source's `except Exception` clause.
* Loading a package (`import anthropic` / `from anthropic import Anthropic` /
  `from openai import OpenAI`) either succeeds or raises; it is an explicit
  `Except PyExc Unit` input (Python retries a failed module load, so both
  anthropic tests see the same load result).
* Each vendor SDK is an abstract record: `construct` models building the client
  from the ambient key (`OpenAI()` / `Anthropic()`), `create` models the single
  network call.  The request value each check hands to `create` is recorded in a
  trace component, one entry per `create` call in the source.
* A check's outcome is `passed`, `failed msg` (a pytest assertion failure or
  `pytest.fail`, carrying its message), or `raised e` (an exception escaping
  the test body uncaught).
-/

namespace TestAPI

/-- Process environment: variable name to value, `none` when unset. -/
abbrev Env := String → Option String

/-- Python truthiness of an `os.getenv` result: `None` and the empty string are
falsy, every other string is truthy. -/
def truthy : Option String → Bool
  | none => false
  | some s => if s = "" then false else true

/-- `headEq p l` : the characters of `p` are an initial segment of `l`. -/
def headEq : List Char → List Char → Bool
  | [], _ => true
  | _ :: _, [] => false
  | a :: as, b :: bs => a == b && headEq as bs

/-- `subAt p l` : `p` occurs contiguously somewhere inside `l`. -/
def subAt (p : List Char) : List Char → Bool
  | [] => headEq p []
  | b :: bs => headEq p (b :: bs) || subAt p bs

/-- Python's `pat in s` on strings: substring containment. -/
def occursIn (pat s : String) : Bool := subAt pat.data s.data

/-- A Python exception: class name, message text (`str(e)`), and whether the
class derives from `Exception` (false for `BaseException`-only classes such as
`KeyboardInterrupt` and `SystemExit`). -/
structure PyExc where
  cls : String
  msg : String
  fromException : Bool
deriving DecidableEq

/-- Outcome of one pytest check. -/
inductive Outcome where
  | passed
  | failed (msg : String)
  | raised (e : PyExc)
deriving DecidableEq

/-- One chat message, as in the dict `role` / `content` literals of the source. -/
structure ChatMessage where
  role : String
  content : String
deriving DecidableEq

/-- The body of an OpenAI `chat.completions.create` call (source lines 12-16). -/
structure ChatRequest where
  model : String
  messages : List ChatMessage
  max_tokens : Nat
deriving DecidableEq

/-- One choice of an OpenAI chat response (`resp.choices[i].message`). -/
structure ChatChoice where
  message : ChatMessage
deriving DecidableEq

/-- An OpenAI chat response: its list of choices. -/
structure ChatResponse where
  choices : List ChatChoice
deriving DecidableEq

/-- The body of an Anthropic `messages.create` call (source lines 31-35),
field order as in the source. -/
structure MsgRequest where
  model : String
  max_tokens : Nat
  messages : List ChatMessage
deriving DecidableEq

/-- One content block of an Anthropic response (`resp.content[i].text`). -/
structure ContentBlock where
  text : String
deriving DecidableEq

/-- An Anthropic response: its list of content blocks. -/
structure AnthropicResponse where
  content : List ContentBlock
deriving DecidableEq

/-- The OpenAI SDK, abstracted: `construct` is `OpenAI()` reading the ambient
key, `create` is `client.chat.completions.create`; either may raise. -/
structure OpenAISDK where
  construct : Option String → Except PyExc Unit
  create : Option String → ChatRequest → Except PyExc ChatResponse

/-- The Anthropic SDK, abstracted: `construct` is `Anthropic()` reading the
ambient key, `create` is `client.messages.create`; either may raise. -/
structure AnthropicSDK where
  construct : Option String → Except PyExc Unit
  create : Option String → MsgRequest → Except PyExc AnthropicResponse

/-- The literal request built by `test_openai_call` (source lines 12-16). -/
def openaiRequest : ChatRequest :=
  ⟨"gpt-4o-mini", [⟨"user", "Say OK"⟩], 5⟩

/-- The literal request built by `test_anthropic_call` (source lines 31-35). -/
def anthropicRequest : MsgRequest :=
  ⟨"claude-3-haiku-20240307", 5, [⟨"user", "Say OK"⟩]⟩

/-- The exception raised by Python when indexing `[0]` into an empty list. -/
def indexExc : PyExc := ⟨"IndexError", "list index out of range", true⟩

/-- Source lines 6-7: `assert os.getenv("OPENAI_API_KEY"), "OPENAI_API_KEY is
not set in this environment"`. -/
def test_openai_key_present (env : Env) : Outcome :=
  if truthy (env "OPENAI_API_KEY") then .passed
  else .failed "OPENAI_API_KEY is not set in this environment"

/-- Source lines 25-26: the same presence assertion for `ANTHROPIC_API_KEY`. -/
def test_anthropic_key_present (env : Env) : Outcome :=
  if truthy (env "ANTHROPIC_API_KEY") then .passed
  else .failed "ANTHROPIC_API_KEY is not set in this environment"

/-- Source lines 9-17: `from openai import OpenAI`; `client = OpenAI()`;
one `create` call with the literal request; `assert "OK" in
resp.choices[0].message.content`.  The second component is the trace of
requests handed to `create`. -/
def test_openai_call (impO : Except PyExc Unit) (env : Env) (sdk : OpenAISDK) :
    Outcome × List ChatRequest :=
  match impO with
  | .error e => (.raised e, [])
  | .ok _ =>
    match sdk.construct (env "OPENAI_API_KEY") with
    | .error e => (.raised e, [])
    | .ok _ =>
      match sdk.create (env "OPENAI_API_KEY") openaiRequest with
      | .error e => (.raised e, [openaiRequest])
      | .ok resp =>
        match resp.choices with
        | [] => (.raised indexExc, [openaiRequest])
        | c :: _ =>
          if occursIn "OK" c.message.content then (.passed, [openaiRequest])
          else (.failed "assert OK in resp.choices[0].message.content",
                [openaiRequest])

/-- Source lines 19-23: `try: import anthropic except Exception as e:
pytest.fail(f"anthropic package not installed in this interpreter: ...e")`.
The `except Exception` clause catches exactly the exceptions whose class
derives from `Exception`; any other exception leaves the test uncaught. -/
def test_anthropic_installed (imp : Except PyExc Unit) : Outcome :=
  match imp with
  | .ok _ => .passed
  | .error e =>
    if e.fromException then
      .failed ("anthropic package not installed in this interpreter: " ++ e.msg)
    else
      .raised e

/-- Source lines 28-36: `from anthropic import Anthropic` (raises the load
error when the package cannot be loaded); `client = Anthropic()`; one `create`
call with the literal request; `assert "OK" in resp.content[0].text`.  The
second component is the trace of requests handed to `create`. -/
def test_anthropic_call (imp : Except PyExc Unit) (env : Env)
    (sdk : AnthropicSDK) : Outcome × List MsgRequest :=
  match imp with
  | .error e => (.raised e, [])
  | .ok _ =>
    match sdk.construct (env "ANTHROPIC_API_KEY") with
    | .error e => (.raised e, [])
    | .ok _ =>
      match sdk.create (env "ANTHROPIC_API_KEY") anthropicRequest with
      | .error e => (.raised e, [anthropicRequest])
      | .ok resp =>
        match resp.content with
        | [] => (.raised indexExc, [anthropicRequest])
        | b :: _ =>
          if occursIn "OK" b.text then (.passed, [anthropicRequest])
          else (.failed "assert OK in resp.content[0].text",
                [anthropicRequest])

/-- C1: for every environment, each key-presence check passes iff the value
bound to its credential variable is present and non-empty, and whenever the
variable is unset or empty the check fails with a message naming it. -/
theorem key_present_iff_nonempty (env : Env) :
    (test_openai_key_present env = .passed ↔
      ∃ s, env "OPENAI_API_KEY" = some s ∧ s ≠ "") ∧
    ((env "OPENAI_API_KEY" = none ∨ env "OPENAI_API_KEY" = some "") →
      ∃ m, test_openai_key_present env = .failed m ∧
        occursIn "OPENAI_API_KEY" m = true) ∧
    (test_anthropic_key_present env = .passed ↔
      ∃ s, env "ANTHROPIC_API_KEY" = some s ∧ s ≠ "") ∧
    ((env "ANTHROPIC_API_KEY" = none ∨ env "ANTHROPIC_API_KEY" = some "") →
      ∃ m, test_anthropic_key_present env = .failed m ∧
        occursIn "ANTHROPIC_API_KEY" m = true) := by
  refine ⟨?_, ?_, ?_, ?_⟩
  · unfold test_openai_key_present
    cases h : env "OPENAI_API_KEY" with
    | none => simp [truthy, h]
    | some s =>
      by_cases hs : s = "" <;> simp [truthy, hs]
  · intro h
    unfold test_openai_key_present
    rcases h with h | h <;> rw [h] <;>
      exact ⟨"OPENAI_API_KEY is not set in this environment",
        by simp [truthy], by decide⟩
  · unfold test_anthropic_key_present
    cases h : env "ANTHROPIC_API_KEY" with
    | none => simp [truthy, h]
    | some s =>
      by_cases hs : s = "" <;> simp [truthy, hs]
  · intro h
    unfold test_anthropic_key_present
    rcases h with h | h <;> rw [h] <;>
      exact ⟨"ANTHROPIC_API_KEY is not set in this environment",
        by simp [truthy], by decide⟩

/-- C1 witness: at the empty environment both presence checks fail with a
message naming the missing variable. -/
theorem key_present_iff_nonempty_witness :
    (∃ m, test_openai_key_present (fun _ => none) = .failed m ∧
      occursIn "OPENAI_API_KEY" m = true) ∧
    (∃ m, test_anthropic_key_present (fun _ => none) = .failed m ∧
      occursIn "ANTHROPIC_API_KEY" m = true) :=
  ⟨(key_present_iff_nonempty (fun _ => none)).2.1 (Or.inl rfl),
   (key_present_iff_nonempty (fun _ => none)).2.2.2 (Or.inl rfl)⟩

/-- An environment with every variable bound to a non-empty value. -/
def envBoth : Env := fun _ => some "test-key"

/-- A well-behaved OpenAI SDK stub: construction succeeds and the one call
returns a single choice whose content is "OK". -/
def okOpenAISDK : OpenAISDK :=
  ⟨fun _ => .ok (), fun _ _ => .ok ⟨[⟨⟨"assistant", "OK"⟩⟩]⟩⟩

/-- A well-behaved Anthropic SDK stub: construction succeeds and the one call
returns a single content block with text "OK". -/
def okAnthropicSDK : AnthropicSDK :=
  ⟨fun _ => .ok (), fun _ _ => .ok ⟨[⟨"OK"⟩]⟩⟩

/-- C2: when the openai package loads and the client constructs, the OpenAI
call-check hands `create` exactly the one literal request (model
"gpt-4o-mini", single user message "Say OK", max_tokens 5), and for any
response with a first choice it passes iff that choice's content contains
"OK". -/
theorem openai_call_request_and_result (impO : Except PyExc Unit) (env : Env)
    (sdk : OpenAISDK) (hi : impO = .ok ())
    (hc : sdk.construct (env "OPENAI_API_KEY") = .ok ()) :
    openaiRequest = ⟨"gpt-4o-mini", [⟨"user", "Say OK"⟩], 5⟩ ∧
    (test_openai_call impO env sdk).2 = [openaiRequest] ∧
    ∀ resp c rest, sdk.create (env "OPENAI_API_KEY") openaiRequest = .ok resp →
      resp.choices = c :: rest →
      ((test_openai_call impO env sdk).1 = .passed ↔
        occursIn "OK" c.message.content = true) := by
  subst hi
  refine ⟨rfl, ?_, ?_⟩
  · cases hr : sdk.create (env "OPENAI_API_KEY") openaiRequest with
    | error e => simp [test_openai_call, hc, hr]
    | ok resp =>
      cases hch : resp.choices with
      | nil => simp [test_openai_call, hc, hr, hch]
      | cons c cs =>
        by_cases hok : occursIn "OK" c.message.content = true <;>
          simp [test_openai_call, hc, hr, hch, hok]
  · intro resp c rest hr hch
    by_cases hok : occursIn "OK" c.message.content = true <;>
      simp [test_openai_call, hc, hr, hch, hok]

/-- C2 witness: with both keys set and an SDK stub answering "OK", the OpenAI
call-check passes and its trace is the single literal request. -/
theorem openai_call_request_and_result_witness :
    (test_openai_call (.ok ()) envBoth okOpenAISDK).1 = .passed ∧
    (test_openai_call (.ok ()) envBoth okOpenAISDK).2 = [openaiRequest] :=
  have h := openai_call_request_and_result (.ok ()) envBoth okOpenAISDK rfl rfl
  ⟨(h.2.2 ⟨[⟨⟨"assistant", "OK"⟩⟩]⟩ ⟨⟨"assistant", "OK"⟩⟩ [] rfl rfl).mpr
      (by decide),
   h.2.1⟩

/-- C3: when the anthropic package loads and the client constructs, the
Anthropic call-check hands `create` exactly the one literal request (model
"claude-3-haiku-20240307", single user message "Say OK", max_tokens 5), and
for any response with a first content block it passes iff that block's text
contains "OK". -/
theorem anthropic_call_request_and_result (impA : Except PyExc Unit)
    (env : Env) (sdk : AnthropicSDK) (hi : impA = .ok ())
    (hc : sdk.construct (env "ANTHROPIC_API_KEY") = .ok ()) :
    anthropicRequest = ⟨"claude-3-haiku-20240307", 5, [⟨"user", "Say OK"⟩]⟩ ∧
    (test_anthropic_call impA env sdk).2 = [anthropicRequest] ∧
    ∀ resp b rest,
      sdk.create (env "ANTHROPIC_API_KEY") anthropicRequest = .ok resp →
      resp.content = b :: rest →
      ((test_anthropic_call impA env sdk).1 = .passed ↔
        occursIn "OK" b.text = true) := by
  subst hi
  refine ⟨rfl, ?_, ?_⟩
  · cases hr : sdk.create (env "ANTHROPIC_API_KEY") anthropicRequest with
    | error e => simp [test_anthropic_call, hc, hr]
    | ok resp =>
      cases hch : resp.content with
      | nil => simp [test_anthropic_call, hc, hr, hch]
      | cons b bs =>
        by_cases hok : occursIn "OK" b.text = true <;>
          simp [test_anthropic_call, hc, hr, hch, hok]
  · intro resp b rest hr hch
    by_cases hok : occursIn "OK" b.text = true <;>
      simp [test_anthropic_call, hc, hr, hch, hok]

/-- C3 witness: with both keys set and an SDK stub answering "OK", the
Anthropic call-check passes and its trace is the single literal request. -/
theorem anthropic_call_request_and_result_witness :
    (test_anthropic_call (.ok ()) envBoth okAnthropicSDK).1 = .passed ∧
    (test_anthropic_call (.ok ()) envBoth okAnthropicSDK).2 =
      [anthropicRequest] :=
  have h := anthropic_call_request_and_result (.ok ()) envBoth okAnthropicSDK
    rfl rfl
  ⟨(h.2.2 ⟨[⟨"OK"⟩]⟩ ⟨"OK"⟩ [] rfl rfl).mpr (by decide), h.2.1⟩

theorem headEq_self (l : List Char) : headEq l l = true := by
  induction l with
  | nil => rfl
  | cons a as ih => simp [headEq, ih]

theorem subAt_append (p pre : List Char) : subAt p (pre ++ p) = true := by
  induction pre with
  | nil =>
    cases p with
    | nil => rfl
    | cons a as => simp [subAt, headEq_self]
  | cons b bs ih => simp [subAt, ih]

/-- A string occurs as a substring of anything it is appended to. -/
theorem occursIn_append_self (p s : String) : occursIn p (s ++ p) = true := by
  have hd : (s ++ p).data = s.data ++ p.data := by
    cases s; cases p; rfl
  simp [occursIn, hd, subAt_append]

/-- The openai presence check passes exactly when the key value is truthy. -/
theorem openai_presence_passed_iff (env : Env) :
    test_openai_key_present env = .passed ↔
      truthy (env "OPENAI_API_KEY") = true := by
  unfold test_openai_key_present
  by_cases h : truthy (env "OPENAI_API_KEY") = true <;> simp [h]

/-- The anthropic presence check passes exactly when the key value is truthy. -/
theorem anthropic_presence_passed_iff (env : Env) :
    test_anthropic_key_present env = .passed ↔
      truthy (env "ANTHROPIC_API_KEY") = true := by
  unfold test_anthropic_key_present
  by_cases h : truthy (env "ANTHROPIC_API_KEY") = true <;> simp [h]

/-- An authentication error, as a provider raises on a missing or bad key. -/
def authExc : PyExc := ⟨"AuthenticationError", "invalid api key", true⟩

/-- An OpenAI SDK stub that refuses every call. -/
def failOpenAISDK : OpenAISDK := ⟨fun _ => .ok (), fun _ _ => .error authExc⟩

/-- An Anthropic SDK stub that refuses every call. -/
def failAnthropicSDK : AnthropicSDK :=
  ⟨fun _ => .ok (), fun _ _ => .error authExc⟩

/-- C4: assuming the provider SDKs never return a response when the ambient
key is falsy (unset or empty) — the spec's stated precondition that the
library itself fails construction or the request — a call-check cannot pass
in any environment where its key-presence check fails. -/
theorem no_pass_without_key (impO impA : Except PyExc Unit) (env : Env)
    (osdk : OpenAISDK) (asdk : AnthropicSDK)
    (hO : ∀ req resp, truthy (env "OPENAI_API_KEY") = false →
      osdk.create (env "OPENAI_API_KEY") req ≠ .ok resp)
    (hA : ∀ req resp, truthy (env "ANTHROPIC_API_KEY") = false →
      asdk.create (env "ANTHROPIC_API_KEY") req ≠ .ok resp) :
    (test_openai_key_present env ≠ .passed →
      (test_openai_call impO env osdk).1 ≠ .passed) ∧
    (test_anthropic_key_present env ≠ .passed →
      (test_anthropic_call impA env asdk).1 ≠ .passed) := by
  constructor
  · intro hnp
    have hf : truthy (env "OPENAI_API_KEY") = false := by
      rcases Bool.eq_false_or_eq_true (truthy (env "OPENAI_API_KEY")) with h | h
      · exact absurd ((openai_presence_passed_iff env).mpr h) hnp
      · exact h
    cases impO with
    | error e => simp [test_openai_call]
    | ok u =>
      cases u
      cases hcon : osdk.construct (env "OPENAI_API_KEY") with
      | error e => simp [test_openai_call, hcon]
      | ok v =>
        cases v
        cases hr : osdk.create (env "OPENAI_API_KEY") openaiRequest with
        | error e => simp [test_openai_call, hcon, hr]
        | ok resp => exact absurd hr (hO openaiRequest resp hf)
  · intro hnp
    have hf : truthy (env "ANTHROPIC_API_KEY") = false := by
      rcases Bool.eq_false_or_eq_true (truthy (env "ANTHROPIC_API_KEY")) with
        h | h
      · exact absurd ((anthropic_presence_passed_iff env).mpr h) hnp
      · exact h
    cases impA with
    | error e => simp [test_anthropic_call]
    | ok u =>
      cases u
      cases hcon : asdk.construct (env "ANTHROPIC_API_KEY") with
      | error e => simp [test_anthropic_call, hcon]
      | ok v =>
        cases v
        cases hr : asdk.create (env "ANTHROPIC_API_KEY") anthropicRequest with
        | error e => simp [test_anthropic_call, hcon, hr]
        | ok resp => exact absurd hr (hA anthropicRequest resp hf)

/-- C4 witness: in the empty environment, against SDK stubs that refuse every
call, neither call-check passes. -/
theorem no_pass_without_key_witness :
    (test_openai_call (.ok ()) (fun _ => none) failOpenAISDK).1 ≠ .passed ∧
    (test_anthropic_call (.ok ()) (fun _ => none) failAnthropicSDK).1 ≠
      .passed :=
  have h := no_pass_without_key (.ok ()) (.ok ()) (fun _ => none)
    failOpenAISDK failAnthropicSDK
    (fun _ _ _ hr => Except.noConfusion hr)
    (fun _ _ _ hr => Except.noConfusion hr)
  ⟨h.1 (by decide), h.2 (by decide)⟩

/-- The load error raised when the anthropic package is missing. -/
def loadExc : PyExc := ⟨"ModuleNotFoundError", "No module named anthropic", true⟩

/-- C5: when loading the anthropic package raises a load error (an exception
deriving from `Exception`), the availability check fails with a message that
contains the error text, and the call-check raises at its import line without
handing any request to the provider. -/
theorem load_failure_blocks_call (imp : Except PyExc Unit) (e : PyExc)
    (env : Env) (sdk : AnthropicSDK) (he : imp = .error e)
    (hex : e.fromException = true) :
    test_anthropic_installed imp =
      .failed ("anthropic package not installed in this interpreter: "
        ++ e.msg) ∧
    occursIn e.msg
      ("anthropic package not installed in this interpreter: " ++ e.msg) =
      true ∧
    (test_anthropic_call imp env sdk).1 = .raised e ∧
    (test_anthropic_call imp env sdk).2 = [] := by
  subst he
  refine ⟨by simp [test_anthropic_installed, hex],
    occursIn_append_self e.msg
      "anthropic package not installed in this interpreter: ", rfl, rfl⟩

/-- C5 witness: with the anthropic package missing, the availability check
fails naming the load error and the call-check issues no request. -/
theorem load_failure_blocks_call_witness :
    test_anthropic_installed (.error loadExc) =
      .failed ("anthropic package not installed in this interpreter: "
        ++ loadExc.msg) ∧
    (test_anthropic_call (.error loadExc) envBoth okAnthropicSDK).2 = [] :=
  have h := load_failure_blocks_call (.error loadExc) loadExc envBoth
    okAnthropicSDK rfl rfl
  ⟨h.1, h.2.2.2⟩

/-- C6: the availability check passes exactly when the anthropic package
loads without raising, and for every load error (an exception deriving from
`Exception`, as errors raised by a module load are) it fails with a message
containing the error text. -/
theorem installed_iff_loadable (imp : Except PyExc Unit) :
    (test_anthropic_installed imp = .passed ↔ imp = .ok ()) ∧
    (∀ e, imp = .error e → e.fromException = true →
      ∃ m, test_anthropic_installed imp = .failed m ∧
        occursIn e.msg m = true) := by
  constructor
  · cases imp with
    | ok u => cases u; simp [test_anthropic_installed]
    | error e =>
      by_cases hex : e.fromException = true <;>
        simp [test_anthropic_installed, hex]
  · rintro e rfl hex
    exact ⟨"anthropic package not installed in this interpreter: " ++ e.msg,
      by simp [test_anthropic_installed, hex],
      occursIn_append_self e.msg
        "anthropic package not installed in this interpreter: "⟩

/-- C6 witness: at a concrete load error the availability check fails with a
message containing the error text. -/
theorem installed_iff_loadable_witness :
    ∃ m, test_anthropic_installed (.error loadExc) = .failed m ∧
      occursIn loadExc.msg m = true :=
  (installed_iff_loadable (.error loadExc)).2 loadExc rfl rfl

/-- C7: any error the SDK raises during a call-check — at client construction
or at the one request — escapes the check unchanged as a raised exception;
the trace shows a single request at most, so nothing is caught, retried or
recovered. -/
theorem provider_errors_propagate (impO impA : Except PyExc Unit) (env : Env)
    (osdk : OpenAISDK) (asdk : AnthropicSDK) :
    (∀ e, impO = .ok () → osdk.construct (env "OPENAI_API_KEY") = .error e →
      test_openai_call impO env osdk = (.raised e, [])) ∧
    (∀ e, impO = .ok () → osdk.construct (env "OPENAI_API_KEY") = .ok () →
      osdk.create (env "OPENAI_API_KEY") openaiRequest = .error e →
      test_openai_call impO env osdk = (.raised e, [openaiRequest])) ∧
    (∀ e, impA = .ok () → asdk.construct (env "ANTHROPIC_API_KEY") = .error e →
      test_anthropic_call impA env asdk = (.raised e, [])) ∧
    (∀ e, impA = .ok () → asdk.construct (env "ANTHROPIC_API_KEY") = .ok () →
      asdk.create (env "ANTHROPIC_API_KEY") anthropicRequest = .error e →
      test_anthropic_call impA env asdk = (.raised e, [anthropicRequest])) := by
  refine ⟨?_, ?_, ?_, ?_⟩
  · rintro e rfl hcon
    simp [test_openai_call, hcon]
  · rintro e rfl hcon hr
    simp [test_openai_call, hcon, hr]
  · rintro e rfl hcon
    simp [test_anthropic_call, hcon]
  · rintro e rfl hcon hr
    simp [test_anthropic_call, hcon, hr]

/-- C7 witness: against SDK stubs whose call raises an authentication error,
both call-checks end as that raised error after exactly one request. -/
theorem provider_errors_propagate_witness :
    test_openai_call (.ok ()) envBoth failOpenAISDK =
      (.raised authExc, [openaiRequest]) ∧
    test_anthropic_call (.ok ()) envBoth failAnthropicSDK =
      (.raised authExc, [anthropicRequest]) :=
  have h := provider_errors_propagate (.ok ()) (.ok ()) envBoth
    failOpenAISDK failAnthropicSDK
  ⟨h.2.1 authExc rfl rfl rfl, h.2.2.2 authExc rfl rfl rfl⟩

/-- An environment whose OpenAI key is empty and whose other variables are
set to a fixed non-empty value. -/
def envEmptyOpenai : Env :=
  fun k => if k = "OPENAI_API_KEY" then some "" else some "valid-key"

/-- The same environment as `envEmptyOpenai` except that the OpenAI key is a
non-empty value. -/
def envValidOpenai : Env :=
  fun k => if k = "OPENAI_API_KEY" then some "sk-live" else some "valid-key"

/-- C8: the three Anthropic checks read nothing bound to `OPENAI_API_KEY`:
any two environments agreeing outside that variable give identical outcomes
for the Anthropic presence, availability and call checks. -/
theorem anthropic_checks_ignore_openai_key (env1 env2 : Env)
    (h : ∀ k, k ≠ "OPENAI_API_KEY" → env1 k = env2 k)
    (imp : Except PyExc Unit) (sdk : AnthropicSDK) :
    test_anthropic_key_present env1 = test_anthropic_key_present env2 ∧
    test_anthropic_installed imp = test_anthropic_installed imp ∧
    test_anthropic_call imp env1 sdk = test_anthropic_call imp env2 sdk := by
  have hk : env1 "ANTHROPIC_API_KEY" = env2 "ANTHROPIC_API_KEY" :=
    h "ANTHROPIC_API_KEY" (by decide)
  refine ⟨?_, rfl, ?_⟩
  · unfold test_anthropic_key_present
    rw [hk]
  · unfold test_anthropic_call
    rw [hk]

/-- C8 witness: flipping `OPENAI_API_KEY` from empty to valid leaves the
Anthropic presence and call checks' outcomes unchanged. -/
theorem anthropic_checks_ignore_openai_key_witness :
    test_anthropic_key_present envEmptyOpenai =
      test_anthropic_key_present envValidOpenai ∧
    test_anthropic_call (.ok ()) envEmptyOpenai okAnthropicSDK =
      test_anthropic_call (.ok ()) envValidOpenai okAnthropicSDK :=
  have h := anthropic_checks_ignore_openai_key envEmptyOpenai envValidOpenai
    (fun k hk => by simp [envEmptyOpenai, envValidOpenai, hk])
    (.ok ()) okAnthropicSDK
  ⟨h.1, h.2.2⟩

/-- `repeatRuns n check` : the outcomes of running the same check `n` times. -/
def repeatRuns (n : Nat) (check : Unit → Outcome) : List Outcome :=
  (List.range n).map fun _ => check ()

/-- C9: with the environment, the package-load results and the SDKs fixed
(every piece of ambient state a check reads is an explicit argument, so no
check touches state surviving from a prior run), running any of the five
checks any number of times yields the same outcome on every run. -/
theorem checks_idempotent (n : Nat) (env : Env) (impO impA : Except PyExc Unit)
    (osdk : OpenAISDK) (asdk : AnthropicSDK) :
    (∀ o ∈ repeatRuns n (fun _ => test_openai_key_present env),
      o = test_openai_key_present env) ∧
    (∀ o ∈ repeatRuns n (fun _ => (test_openai_call impO env osdk).1),
      o = (test_openai_call impO env osdk).1) ∧
    (∀ o ∈ repeatRuns n (fun _ => test_anthropic_installed impA),
      o = test_anthropic_installed impA) ∧
    (∀ o ∈ repeatRuns n (fun _ => test_anthropic_key_present env),
      o = test_anthropic_key_present env) ∧
    (∀ o ∈ repeatRuns n (fun _ => (test_anthropic_call impA env asdk).1),
      o = (test_anthropic_call impA env asdk).1) := by
  refine ⟨?_, ?_, ?_, ?_, ?_⟩ <;> intro o ho <;>
    simp only [repeatRuns, List.mem_map] at ho <;>
    obtain ⟨a, _, ha⟩ := ho <;> exact ha.symm

/-- C9 witness: two successive runs of the openai presence check on a fixed
environment give its (passing) outcome both times. -/
theorem checks_idempotent_witness :
    test_openai_key_present envBoth = test_openai_key_present envBoth :=
  (checks_idempotent 2 envBoth (.ok ()) (.ok ()) okOpenAISDK okAnthropicSDK).1
    (test_openai_key_present envBoth) (by decide)

/-- A `BaseException`-only exception: `KeyboardInterrupt` does not derive
from `Exception`, so an `except Exception` clause does not catch it. -/
def kbExc : PyExc := ⟨"KeyboardInterrupt", "interrupted", false⟩

/-- C10 counterexample: a `KeyboardInterrupt` raised while loading the
anthropic package escapes `test_anthropic_installed` as a raised exception
instead of being converted into the check's failure — the `except Exception`
clause does not catch every exception whatsoever. -/
theorem base_exception_escapes_installed :
    test_anthropic_installed (.error kbExc) = .raised kbExc ∧
    test_anthropic_installed (.error kbExc) ≠
      .failed ("anthropic package not installed in this interpreter: "
        ++ kbExc.msg) := by
  constructor
  · rfl
  · decide

/-- C10 amended: the availability check catches every exception whose class
derives from Python's `Exception` (not only import errors) and converts it
into an ordinary failure containing the exception's text, while a
`BaseException`-only exception propagates out of the check unconverted. -/
theorem except_clause_catches_exception_subclasses (e : PyExc) :
    (e.fromException = true →
      test_anthropic_installed (.error e) =
        .failed ("anthropic package not installed in this interpreter: "
          ++ e.msg) ∧
      occursIn e.msg
        ("anthropic package not installed in this interpreter: " ++ e.msg) =
        true) ∧
    (e.fromException = false →
      test_anthropic_installed (.error e) = .raised e) := by
  constructor
  · intro hex
    exact ⟨by simp [test_anthropic_installed, hex],
      occursIn_append_self e.msg
        "anthropic package not installed in this interpreter: "⟩
  · intro hex
    simp [test_anthropic_installed, hex]

/-- C10 amended witness: a `RuntimeError` during the load is converted into
the check's failure, while a `KeyboardInterrupt` propagates. -/
theorem except_clause_catches_exception_subclasses_witness :
    test_anthropic_installed (.error loadExc) =
      .failed ("anthropic package not installed in this interpreter: "
        ++ loadExc.msg) ∧
    test_anthropic_installed (.error kbExc) = .raised kbExc :=
  ⟨((except_clause_catches_exception_subclasses loadExc).1 rfl).1,
   (except_clause_catches_exception_subclasses kbExc).2 rfl⟩

end TestAPI
